import Mathlib

/-
  Verification of the HomeschoolCurriculumGenerator pipeline (src/app.py).

  The Python code is shallowly embedded: pure string construction becomes
  Lean string functions; the boundary to the `requests` and `json`
  libraries is made explicit — the HTTP round trip is an oracle
  `net : String → NetOutcome` applied to the prompt, and Python's
  `json.loads` is an oracle `jloads : String → Except String Json`
  (the error value is the decode diagnostic `str(e)`).  The result of
  `generate_curriculum` additionally records whether the network oracle
  was consulted (`apiCalled`), which mirrors the fact that the two early
  returns in the source happen before `requests.post` is reached.
  Exceptions are Except values; `except` clauses become match arms.
-/

/-- A Python value produced by `json.loads`: None, bool, int, str, list, dict.
    Numbers are modelled as integers (the schema's `weeklyHours` is the only
    numeric field).  A dict is an association list with distinct keys. -/
inductive Json where
  | null
  | bool (b : Bool)
  | num (n : Int)
  | str (s : String)
  | arr (items : List Json)
  | obj (fields : List (String × Json))

/-- First match in an association list (dict keys are distinct). -/
def assocFind (k : String) : List (String × Json) → Option Json
  | [] => none
  | kv :: rest => if kv.1 = k then some kv.2 else assocFind k rest

/-- Python subscript `v[k]` with a string key: a dict lookup raising
    KeyError (whose str() is the quoted key) when absent; every other
    value raises a TypeError. -/
def Json.getItem : Json → String → Except String Json
  | Json.obj fields, k =>
    match assocFind k fields with
    | some v => Except.ok v
    | none => Except.error ("\x27" ++ k ++ "\x27")
  | Json.arr _, _ => Except.error "list indices must be integers or slices, not str"
  | Json.str _, _ => Except.error "string indices must be integers"
  | Json.num _, _ => Except.error "\x27int\x27 object is not subscriptable"
  | Json.bool _, _ => Except.error "\x27bool\x27 object is not subscriptable"
  | Json.null, _ => Except.error "\x27NoneType\x27 object is not subscriptable"

/-- Python iteration `for x in v`: lists yield their items, strings yield
    one-character strings, dicts yield their keys, scalars raise TypeError. -/
def Json.pyIter : Json → Except String (List Json)
  | Json.arr items => Except.ok items
  | Json.str s => Except.ok (s.data.map fun c => Json.str (String.mk [c]))
  | Json.obj fields => Except.ok (fields.map fun kv => Json.str kv.1)
  | Json.num _ => Except.error "\x27int\x27 object is not iterable"
  | Json.bool _ => Except.error "\x27bool\x27 object is not iterable"
  | Json.null => Except.error "\x27NoneType\x27 object is not iterable"

/-- Python repr of a json value, with a structural fuel bound on container
    nesting so the recursion is structural (the bound is never reached by
    the documents this pipeline handles). -/
def Json.reprFuel : Nat → Json → String
  | _, Json.null => "None"
  | _, Json.bool b => if b then "True" else "False"
  | _, Json.num n => toString n
  | _, Json.str s => "\x27" ++ s ++ "\x27"
  | 0, Json.arr _ => "[...]"
  | 0, Json.obj _ => "\x7b...\x7d"
  | fuel + 1, Json.arr items =>
    "[" ++ String.intercalate ", " (items.map (Json.reprFuel fuel)) ++ "]"
  | fuel + 1, Json.obj fields =>
    "\x7b" ++ String.intercalate ", "
      (fields.map fun kv => "\x27" ++ kv.1 ++ "\x27: " ++ Json.reprFuel fuel kv.2) ++ "\x7d"

def Json.pyRepr (v : Json) : String := Json.reprFuel 1000 v

/-- Python `str()` as used by f-string interpolation. -/
def Json.pyStr : Json → String
  | Json.str s => s
  | v => Json.pyRepr v

/-- Python string truthiness in `a or b`: the empty string is falsy. -/
def pyOr (a b : String) : String := if a = "" then b else a

/-- Whitespace recognised by Python's `str.strip()` (ASCII part). -/
def pyIsSpace (c : Char) : Bool :=
  c == ' ' || c == '\t' || c == '\n' || c == '\r' || c == '\x0b' || c == '\x0c'

def pyStripList (l : List Char) : List Char :=
  ((l.dropWhile pyIsSpace).reverse.dropWhile pyIsSpace).reverse

/-- Python `str.strip()` with no argument. -/
def pyStrip (s : String) : String := String.mk (pyStripList s.data)

/-- Left-to-right scan of Python `str.replace` on nonempty patterns:
    at each position, a match of the pattern is replaced and skipped,
    otherwise the character is kept.  Fuel is the input length, making
    the recursion structural. -/
def replaceFuel (pat rep : List Char) : Nat → List Char → List Char
  | _, [] => []
  | 0, l => l
  | fuel + 1, c :: rest =>
    if pat.isPrefixOf (c :: rest) && !pat.isEmpty then
      rep ++ replaceFuel pat rep fuel (List.drop (pat.length - 1) rest)
    else
      c :: replaceFuel pat rep fuel rest

/-- Python `s.replace(pat, rep)` for a nonempty pattern. -/
def pyReplace (s pat rep : String) : String :=
  String.mk (replaceFuel pat.data rep.data s.data.length s.data)

/-- Line 102 of the source: `text.replace('```json', '').replace('```', '').strip()`. -/
def cleanResponse (text : String) : String :=
  pyStrip (pyReplace (pyReplace text "```json" "") "```" "")

/-- `get_grade_suffix` from the source (the int() conversion is reflected
    by taking the grade as an integer). -/
def get_grade_suffix (grade : Int) : String :=
  if grade = 1 then "st"
  else if grade = 2 then "nd"
  else if grade = 3 then "rd"
  else "th"

/-- The prompt f-string built at lines 36-78 of the source. -/
def buildPrompt (student_name : String) (grade_level : Int)
    (selected_subjects : List String) (learning_style : String)
    (weeks_per_year days_per_week : Int) (goals : String) : String :=
  "Create a detailed homeschool curriculum plan for a "
    ++ toString grade_level ++ get_grade_suffix grade_level
    ++ " grade student named " ++ pyOr student_name "Student"
    ++ ".\n\nSubjects to cover: " ++ String.intercalate ", " selected_subjects
    ++ "\nLearning style: " ++ learning_style
    ++ "\nAcademic year: " ++ toString weeks_per_year ++ " weeks, "
    ++ toString days_per_week ++ " days per week\n"
    ++ (if goals = "" then "" else "Learning goals: " ++ goals)
    ++ "\n\nPlease provide:\n"
    ++ "1. A brief overview of what this grade level student should learn\n"
    ++ "2. For each subject:\n"
    ++ "   - Key learning objectives\n"
    ++ "   - Recommended weekly time allocation\n"
    ++ "   - Sample activities tailored to " ++ learning_style ++ " learning style\n"
    ++ "   - Assessment methods\n"
    ++ "   - Resource suggestions (books, websites, materials)\n"
    ++ "3. A sample weekly schedule\n\n"
    ++ "Format your response as structured JSON with this exact format:\n"
    ++ "\x7b\n  \"overview\": \"string\",\n  \"subjects\": [\n    \x7b\n"
    ++ "      \"name\": \"string\",\n      \"objectives\": [\"string\"],\n"
    ++ "      \"weeklyHours\": number,\n      \"activities\": [\"string\"],\n"
    ++ "      \"assessments\": [\"string\"],\n      \"resources\": [\"string\"]\n"
    ++ "    \x7d\n  ],\n  \"weeklySchedule\": [\n    \x7b\n"
    ++ "      \"day\": \"Monday\",\n      \"periods\": [\n"
    ++ "        \x7b\"time\": \"9:00-10:00\", \"subject\": \"Math\", \"activity\": \"string\"\x7d\n"
    ++ "      ]\n    \x7d\n  ]\n\x7d\n\n"
    ++ "Respond ONLY with valid JSON, no other text."

/-- The numbered objective lines `f"{i}. {obj}\n"` produced by
    `enumerate(subject['objectives'], 1)`; both renderers emit the same
    format. -/
def objectiveLines : Nat → List Json → String
  | _, [] => ""
  | i, obj :: rest => toString i ++ ". " ++ obj.pyStr ++ "\n" ++ objectiveLines (i + 1) rest

/-- The bulleted lines `f"- {x}\n"` used for activities, assessments and
    resources in both renderers. -/
def bulletLines : List Json → String
  | [] => ""
  | item :: rest => "- " ++ item.pyStr ++ "\n" ++ bulletLines rest

/-- One iteration of the subject loop of `format_curriculum_display`
    (lines 139-159): field accesses happen in source order and any failure
    aborts with that access error. -/
def renderSubjectDisplay (subject : Json) : Except String String := do
  let name ← subject.getItem "name"
  let hours ← subject.getItem "weeklyHours"
  let objs ← (← subject.getItem "objectives").pyIter
  let acts ← (← subject.getItem "activities").pyIter
  let tests ← (← subject.getItem "assessments").pyIter
  let res ← (← subject.getItem "resources").pyIter
  return "### " ++ name.pyStr ++ " (" ++ hours.pyStr ++ " hrs/week)\n\n**Objectives:**\n"
    ++ objectiveLines 1 objs
    ++ "\n**Activities:**\n" ++ bulletLines acts
    ++ "\n**Assessments:**\n" ++ bulletLines tests
    ++ "\n**Resources:**\n" ++ bulletLines res
    ++ "\n---\n\n"

/-- The subject loop of `format_curriculum_display`, in list order. -/
def renderSubjectsDisplay : List Json → Except String String
  | [] => Except.ok ""
  | s :: rest => do
    let first ← renderSubjectDisplay s
    let more ← renderSubjectsDisplay rest
    return first ++ more

/-- The period loop of `format_curriculum_display` (lines 164-165). -/
def renderPeriodsDisplay : List Json → Except String String
  | [] => Except.ok ""
  | p :: rest => do
    let t ← p.getItem "time"
    let sj ← p.getItem "subject"
    let act ← p.getItem "activity"
    let more ← renderPeriodsDisplay rest
    return "**" ++ t.pyStr ++ "** - *" ++ sj.pyStr ++ ":* " ++ act.pyStr ++ "\n" ++ more

/-- One iteration of the schedule-day loop of `format_curriculum_display`. -/
def renderDayDisplay (day : Json) : Except String String := do
  let d ← day.getItem "day"
  let ps ← (← day.getItem "periods").pyIter
  let body ← renderPeriodsDisplay ps
  return "### " ++ d.pyStr ++ "\n" ++ body ++ "\n"

/-- The schedule loop of `format_curriculum_display`, in list order. -/
def renderDaysDisplay : List Json → Except String String
  | [] => Except.ok ""
  | day :: rest => do
    let first ← renderDayDisplay day
    let more ← renderDaysDisplay rest
    return first ++ more

/-- `format_curriculum_display` (lines 120-168).  The generation date is a
    parameter standing for `datetime.now().strftime('%Y-%m-%d')` captured
    at render time. -/
def format_curriculum_display (curriculum : Json) (student_name : String)
    (grade_level : Int) (today : String) : Except String String := do
  let overview ← curriculum.getItem "overview"
  let subjects ← (← curriculum.getItem "subjects").pyIter
  let subjectsOut ← renderSubjectsDisplay subjects
  let days ← (← curriculum.getItem "weeklySchedule").pyIter
  let daysOut ← renderDaysDisplay days
  return "# 📚 Homeschool Curriculum\n**Student:** " ++ pyOr student_name "Student"
    ++ "  \n**Grade:** " ++ toString grade_level
    ++ "  \n**Generated:** " ++ today
    ++ "\n\n---\n\n## 🎯 Overview\n" ++ overview.pyStr
    ++ "\n\n---\n\n## 📖 Subject Plans\n\n"
    ++ subjectsOut
    ++ "## 📅 Sample Weekly Schedule\n\n"
    ++ daysOut

/-- The separator of 50 dashes between subject blocks (`"-"*50`). -/
def dashedLine : String := String.mk (List.replicate 50 '-')

/-- One iteration of the subject loop of `format_curriculum_text`
    (lines 183-203). -/
def renderSubjectText (subject : Json) : Except String String := do
  let name ← subject.getItem "name"
  let hours ← subject.getItem "weeklyHours"
  let objs ← (← subject.getItem "objectives").pyIter
  let acts ← (← subject.getItem "activities").pyIter
  let tests ← (← subject.getItem "assessments").pyIter
  let res ← (← subject.getItem "resources").pyIter
  return "\n" ++ name.pyStr ++ "\nWeekly Hours: " ++ hours.pyStr ++ "\n\nObjectives:\n"
    ++ objectiveLines 1 objs
    ++ "\nActivities:\n" ++ bulletLines acts
    ++ "\nAssessments:\n" ++ bulletLines tests
    ++ "\nResources:\n" ++ bulletLines res
    ++ "\n" ++ dashedLine ++ "\n"

/-- The subject loop of `format_curriculum_text`, in list order. -/
def renderSubjectsText : List Json → Except String String
  | [] => Except.ok ""
  | s :: rest => do
    let first ← renderSubjectText s
    let more ← renderSubjectsText rest
    return first ++ more

/-- The period loop of `format_curriculum_text` (lines 208-209). -/
def renderPeriodsText : List Json → Except String String
  | [] => Except.ok ""
  | p :: rest => do
    let t ← p.getItem "time"
    let sj ← p.getItem "subject"
    let act ← p.getItem "activity"
    let more ← renderPeriodsText rest
    return "  " ++ t.pyStr ++ " - " ++ sj.pyStr ++ ": " ++ act.pyStr ++ "\n" ++ more

/-- One iteration of the schedule-day loop of `format_curriculum_text`. -/
def renderDayText (day : Json) : Except String String := do
  let d ← day.getItem "day"
  let ps ← (← day.getItem "periods").pyIter
  let body ← renderPeriodsText ps
  return "\n" ++ d.pyStr ++ ":\n" ++ body

/-- The schedule loop of `format_curriculum_text`, in list order. -/
def renderDaysText : List Json → Except String String
  | [] => Except.ok ""
  | day :: rest => do
    let first ← renderDayText day
    let more ← renderDaysText rest
    return first ++ more

/-- `format_curriculum_text` (lines 170-211). -/
def format_curriculum_text (curriculum : Json) (student_name : String)
    (grade_level : Int) (today : String) : Except String String := do
  let overview ← curriculum.getItem "overview"
  let subjects ← (← curriculum.getItem "subjects").pyIter
  let subjectsOut ← renderSubjectsText subjects
  let days ← (← curriculum.getItem "weeklySchedule").pyIter
  let daysOut ← renderDaysText days
  return "HOMESCHOOL CURRICULUM\nStudent: " ++ pyOr student_name "Student"
    ++ "\nGrade: " ++ toString grade_level
    ++ "\nGenerated: " ++ today
    ++ "\n\n" ++ overview.pyStr
    ++ "\n\nSUBJECTS:\n"
    ++ subjectsOut
    ++ "\nWEEKLY SCHEDULE:\n"
    ++ daysOut

/-- Outcome of the network interaction (post, raise_for_status,
    response.json() and the `result['content'][0]['text']` extraction):
    a RequestException, a successfully extracted response text, or a
    generic exception while extracting. -/
inductive NetOutcome where
  | transportError (msg : String)
  | response (text : String)
  | extractionError (msg : String)
deriving DecidableEq

/-- The pair returned by `generate_curriculum`, extended with a flag
    recording whether the network oracle was consulted. -/
structure GenResult where
  message : String
  download : Option String
  apiCalled : Bool
deriving DecidableEq

/-- `generate_curriculum` (lines 25-118).  `net` is the network round trip
    applied to the prompt; `jloads` is `json.loads` returning the decode
    diagnostic on failure; `today` is the render-time date used by the two
    formatters. -/
def generate_curriculum (api_key student_name : String) (grade_level : Int)
    (selected_subjects : List String) (learning_style : String)
    (weeks_per_year days_per_week : Int) (goals : String)
    (net : String → NetOutcome) (jloads : String → Except String Json)
    (today : String) : GenResult :=
  if selected_subjects.isEmpty then
    ⟨"❌ Please select at least one subject", none, false⟩
  else if api_key = "" then
    ⟨"❌ API key not configured. Please add ANTHROPIC_API_KEY to Hugging Face Secrets.", none, false⟩
  else
    match net (buildPrompt student_name grade_level selected_subjects
        learning_style weeks_per_year days_per_week goals) with
    | NetOutcome.transportError e => ⟨"❌ API request failed: " ++ e, none, true⟩
    | NetOutcome.extractionError e => ⟨"❌ Error: " ++ e, none, true⟩
    | NetOutcome.response text =>
      match jloads (cleanResponse text) with
      | Except.error e => ⟨"❌ Failed to parse curriculum data: " ++ e, none, true⟩
      | Except.ok curriculum_data =>
        match format_curriculum_display curriculum_data student_name grade_level today with
        | Except.error e => ⟨"❌ Error: " ++ e, none, true⟩
        | Except.ok formatted_output =>
          match format_curriculum_text curriculum_data student_name grade_level today with
          | Except.error e => ⟨"❌ Error: " ++ e, none, true⟩
          | Except.ok download_text => ⟨formatted_output, some download_text, true⟩

/-- The prompt text before the comma-joined subject list. -/
def promptSubjectsPre (student_name : String) (grade_level : Int) : String :=
  "Create a detailed homeschool curriculum plan for a " ++ toString grade_level
    ++ get_grade_suffix grade_level ++ " grade student named "
    ++ pyOr student_name "Student" ++ ".\n\nSubjects to cover: "

/-- The prompt text between the subject list and the optional goals line. -/
def promptGoalsPre (learning_style : String) (weeks_per_year days_per_week : Int) : String :=
  "\nLearning style: " ++ learning_style ++ "\nAcademic year: "
    ++ toString weeks_per_year ++ " weeks, " ++ toString days_per_week
    ++ " days per week\n"

/-- The prompt text after the optional goals line. -/
def promptTail (learning_style : String) : String :=
  "\n\nPlease provide:\n"
    ++ "1. A brief overview of what this grade level student should learn\n"
    ++ "2. For each subject:\n"
    ++ "   - Key learning objectives\n"
    ++ "   - Recommended weekly time allocation\n"
    ++ "   - Sample activities tailored to " ++ learning_style ++ " learning style\n"
    ++ "   - Assessment methods\n"
    ++ "   - Resource suggestions (books, websites, materials)\n"
    ++ "3. A sample weekly schedule\n\n"
    ++ "Format your response as structured JSON with this exact format:\n"
    ++ "\x7b\n  \"overview\": \"string\",\n  \"subjects\": [\n    \x7b\n"
    ++ "      \"name\": \"string\",\n      \"objectives\": [\"string\"],\n"
    ++ "      \"weeklyHours\": number,\n      \"activities\": [\"string\"],\n"
    ++ "      \"assessments\": [\"string\"],\n      \"resources\": [\"string\"]\n"
    ++ "    \x7d\n  ],\n  \"weeklySchedule\": [\n    \x7b\n"
    ++ "      \"day\": \"Monday\",\n      \"periods\": [\n"
    ++ "        \x7b\"time\": \"9:00-10:00\", \"subject\": \"Math\", \"activity\": \"string\"\x7d\n"
    ++ "      ]\n    \x7d\n  ]\n\x7d\n\n"
    ++ "Respond ONLY with valid JSON, no other text."

/-- The line produced for one period by the display renderer. -/
def periodLineDisplay (p : Json) : Except String String := do
  let t ← p.getItem "time"
  let sj ← p.getItem "subject"
  let act ← p.getItem "activity"
  return "**" ++ t.pyStr ++ "** - *" ++ sj.pyStr ++ ":* " ++ act.pyStr ++ "\n"

/-- The line produced for one period by the plain-text renderer. -/
def periodLineText (p : Json) : Except String String := do
  let t ← p.getItem "time"
  let sj ← p.getItem "subject"
  let act ← p.getItem "activity"
  return "  " ++ t.pyStr ++ " - " ++ sj.pyStr ++ ": " ++ act.pyStr ++ "\n"

/-- The backtick character. -/
def tick : Char := Char.ofNat 96

/-- Two fallible computations agree on the effect level: both succeed, or
    both fail with the same exception message. -/
def agreeE {α β : Type} : Except String α → Except String β → Prop
  | Except.ok _, Except.ok _ => True
  | Except.error e, Except.error f => e = f
  | _, _ => False

/-- Claim C1: the grade-suffix operation returns "st" for 1, "nd" for 2,
    "rd" for 3 and "th" for every other integer, with 11, 12 and 13 not
    special-cased. -/
theorem get_grade_suffix_spec (g : Int) :
    (g = 1 → get_grade_suffix g = "st") ∧
    (g = 2 → get_grade_suffix g = "nd") ∧
    (g = 3 → get_grade_suffix g = "rd") ∧
    (g ≠ 1 → g ≠ 2 → g ≠ 3 → get_grade_suffix g = "th") ∧
    get_grade_suffix 11 = "th" ∧ get_grade_suffix 12 = "th" ∧
    get_grade_suffix 13 = "th" := by
  refine ⟨fun h => by subst h; decide, fun h => by subst h; decide,
    fun h => by subst h; decide,
    fun h1 h2 h3 => by simp [get_grade_suffix, h1, h2, h3],
    by decide, by decide, by decide⟩

theorem get_grade_suffix_spec_witness :
    get_grade_suffix 1 = "st" ∧ get_grade_suffix 2 = "nd" ∧
    get_grade_suffix 3 = "rd" ∧ get_grade_suffix 4 = "th" :=
  ⟨(get_grade_suffix_spec 1).1 rfl, (get_grade_suffix_spec 2).2.1 rfl,
   (get_grade_suffix_spec 3).2.2.1 rfl,
   (get_grade_suffix_spec 4).2.2.2.1 (by decide) (by decide) (by decide)⟩

/-- Claim C2: with an empty subjects selection, the pipeline returns the
    validation-failure message, no secondary artifact, and never consults
    the network oracle. -/
theorem generate_curriculum_empty_subjects (api_key student_name : String)
    (grade_level : Int) (learning_style : String)
    (weeks_per_year days_per_week : Int) (goals : String)
    (net : String → NetOutcome) (jloads : String → Except String Json)
    (today : String) :
    generate_curriculum api_key student_name grade_level [] learning_style
      weeks_per_year days_per_week goals net jloads today =
      ⟨"❌ Please select at least one subject", none, false⟩ := rfl

/-- Claim C3: with a non-empty subjects selection and an empty API
    credential, the pipeline fails with the configuration-error message,
    no secondary artifact, and never consults the network oracle. -/
theorem generate_curriculum_missing_key (student_name : String)
    (grade_level : Int) (s : String) (rest : List String)
    (learning_style : String) (weeks_per_year days_per_week : Int)
    (goals : String) (net : String → NetOutcome)
    (jloads : String → Except String Json) (today : String) :
    generate_curriculum "" student_name grade_level (s :: rest) learning_style
      weeks_per_year days_per_week goals net jloads today =
      ⟨"❌ API key not configured. Please add ANTHROPIC_API_KEY to Hugging Face Secrets.",
        none, false⟩ := rfl

/-- Claim C10: when the subjects selection is empty and the API credential
    is also missing, the returned message is the subjects validation error,
    not the configuration error. -/
theorem generate_curriculum_validation_first (student_name : String)
    (grade_level : Int) (learning_style : String)
    (weeks_per_year days_per_week : Int) (goals : String)
    (net : String → NetOutcome) (jloads : String → Except String Json)
    (today : String) :
    generate_curriculum "" student_name grade_level [] learning_style
      weeks_per_year days_per_week goals net jloads today =
      ⟨"❌ Please select at least one subject", none, false⟩ := rfl

set_option maxRecDepth 16384 in
/-- Claim C8: the constructed prompt renders the subject list comma-joined,
    contains the goals line exactly when goals is non-empty, and uses the
    placeholder name when the student name is empty. -/
theorem buildPrompt_spec (student_name : String) (grade_level : Int)
    (selected_subjects : List String) (learning_style : String)
    (weeks_per_year days_per_week : Int) (goals : String) :
    buildPrompt student_name grade_level selected_subjects learning_style
        weeks_per_year days_per_week goals =
      promptSubjectsPre student_name grade_level
        ++ String.intercalate ", " selected_subjects
        ++ promptGoalsPre learning_style weeks_per_year days_per_week
        ++ (if goals = "" then "" else "Learning goals: " ++ goals)
        ++ promptTail learning_style ∧
    (String.intercalate ", " selected_subjects).data <:+:
      (buildPrompt student_name grade_level selected_subjects learning_style
        weeks_per_year days_per_week goals).data ∧
    (goals ≠ "" → ("Learning goals: " ++ goals).data <:+:
      (buildPrompt student_name grade_level selected_subjects learning_style
        weeks_per_year days_per_week goals).data) ∧
    buildPrompt "" grade_level selected_subjects learning_style
        weeks_per_year days_per_week goals =
      buildPrompt "Student" grade_level selected_subjects learning_style
        weeks_per_year days_per_week goals := by
  have hdec : buildPrompt student_name grade_level selected_subjects
      learning_style weeks_per_year days_per_week goals =
      promptSubjectsPre student_name grade_level
        ++ String.intercalate ", " selected_subjects
        ++ promptGoalsPre learning_style weeks_per_year days_per_week
        ++ (if goals = "" then "" else "Learning goals: " ++ goals)
        ++ promptTail learning_style := by
    apply String.ext
    simp [buildPrompt, promptSubjectsPre, promptGoalsPre, promptTail,
      String.data_append, List.append_assoc]
  refine ⟨hdec, ?_, ?_, rfl⟩
  · rw [hdec]
    refine ⟨(promptSubjectsPre student_name grade_level).data,
      (promptGoalsPre learning_style weeks_per_year days_per_week).data
        ++ (if goals = "" then "" else "Learning goals: " ++ goals).data
        ++ (promptTail learning_style).data, ?_⟩
    simp [String.data_append, List.append_assoc]
  · intro h
    rw [hdec, if_neg h]
    refine ⟨(promptSubjectsPre student_name grade_level).data
        ++ (String.intercalate ", " selected_subjects).data
        ++ (promptGoalsPre learning_style weeks_per_year days_per_week).data,
      (promptTail learning_style).data, ?_⟩
    simp [String.data_append, List.append_assoc]

theorem buildPrompt_spec_witness :
    ("Learning goals: " ++ "Focus on fractions").data <:+:
      (buildPrompt "Alex" 3 ["Math", "Science"] "visual" 36 5
        "Focus on fractions").data :=
  (buildPrompt_spec "Alex" 3 ["Math", "Science"] "visual" 36 5
    "Focus on fractions").2.2.1 (by decide)

/-- Helper: the error marker stays a prefix after appending a diagnostic. -/
theorem errMark_prefix_append (base e : String) (h : "❌".data <+: base.data) :
    "❌".data <+: (base ++ e).data := by
  rw [String.data_append]
  exact h.trans (List.prefix_append base.data e.data)

/-- Claim C4: the response text is fence-stripped and whitespace-stripped
    before being handed to the JSON parser (the pipeline's outcome depends
    on the parser only at the cleaned text), and a parse failure yields the
    ParseError message carrying the decode diagnostic with no rendering. -/
theorem parse_error_path (api_key student_name : String) (grade_level : Int)
    (s : String) (rest : List String) (learning_style : String)
    (weeks_per_year days_per_week : Int) (goals : String)
    (net : String → NetOutcome) (today text e : String)
    (hk : api_key ≠ "")
    (hnet : net (buildPrompt student_name grade_level (s :: rest) learning_style
      weeks_per_year days_per_week goals) = NetOutcome.response text) :
    cleanResponse "```json\n\x7b\"a\": 1\x7d\n```" = "\x7b\"a\": 1\x7d" ∧
    (∀ jl₁ jl₂ : String → Except String Json,
      jl₁ (cleanResponse text) = jl₂ (cleanResponse text) →
      generate_curriculum api_key student_name grade_level (s :: rest)
        learning_style weeks_per_year days_per_week goals net jl₁ today =
      generate_curriculum api_key student_name grade_level (s :: rest)
        learning_style weeks_per_year days_per_week goals net jl₂ today) ∧
    (∀ jl : String → Except String Json,
      jl (cleanResponse text) = Except.error e →
      generate_curriculum api_key student_name grade_level (s :: rest)
        learning_style weeks_per_year days_per_week goals net jl today =
        ⟨"❌ Failed to parse curriculum data: " ++ e, none, true⟩) := by
  refine ⟨by decide, ?_, ?_⟩
  · intro jl₁ jl₂ h
    unfold generate_curriculum
    simp [hk, hnet, h]
  · intro jl h
    unfold generate_curriculum
    simp [hk, hnet, h]

theorem parse_error_path_witness :
    generate_curriculum "k" "Alex" 3 ["Math"] "visual" 36 5 ""
      (fun _ => NetOutcome.response "not json")
      (fun _ => Except.error "Expecting value: line 1 column 1 (char 0)")
      "2026-10-12" =
      ⟨"❌ Failed to parse curriculum data: Expecting value: line 1 column 1 (char 0)",
        none, true⟩ :=
  (parse_error_path "k" "Alex" 3 "Math" [] "visual" 36 5 ""
      (fun _ => NetOutcome.response "not json") "2026-10-12" "not json"
      "Expecting value: line 1 column 1 (char 0)" (by decide) rfl).2.2
    (fun _ => Except.error "Expecting value: line 1 column 1 (char 0)") rfl

/-- Claim C6: every call yields a two-part result whose message is always
    present; the plain-text artifact is present exactly on success, in which
    case the message is the display rendering and the artifact the text
    rendering; on every failure the artifact is none and the message is an
    error message. -/
theorem two_part_result (api_key student_name : String) (grade_level : Int)
    (selected_subjects : List String) (learning_style : String)
    (weeks_per_year days_per_week : Int) (goals : String)
    (net : String → NetOutcome) (jloads : String → Except String Json)
    (today : String) :
    ((generate_curriculum api_key student_name grade_level selected_subjects
        learning_style weeks_per_year days_per_week goals net jloads
        today).download = none ∧
      "❌".data <+: (generate_curriculum api_key student_name grade_level
        selected_subjects learning_style weeks_per_year days_per_week goals
        net jloads today).message.data) ∨
    (∃ text c fd td,
      net (buildPrompt student_name grade_level selected_subjects
        learning_style weeks_per_year days_per_week goals) =
          NetOutcome.response text ∧
      jloads (cleanResponse text) = Except.ok c ∧
      format_curriculum_display c student_name grade_level today = Except.ok fd ∧
      format_curriculum_text c student_name grade_level today = Except.ok td ∧
      generate_curriculum api_key student_name grade_level selected_subjects
        learning_style weeks_per_year days_per_week goals net jloads today =
        ⟨fd, some td, true⟩) := by
  unfold generate_curriculum
  by_cases hsub : selected_subjects.isEmpty = true
  · rw [if_pos hsub]
    exact Or.inl ⟨rfl, by decide⟩
  · rw [if_neg hsub]
    by_cases hk : api_key = ""
    · rw [if_pos hk]
      exact Or.inl ⟨rfl, by decide⟩
    · rw [if_neg hk]
      split
      · exact Or.inl ⟨rfl, errMark_prefix_append "❌ API request failed: " _ (by decide)⟩
      · exact Or.inl ⟨rfl, errMark_prefix_append "❌ Error: " _ (by decide)⟩
      · rename_i text hnet
        split
        · exact Or.inl ⟨rfl,
            errMark_prefix_append "❌ Failed to parse curriculum data: " _ (by decide)⟩
        · rename_i c hjl
          split
          · exact Or.inl ⟨rfl, errMark_prefix_append "❌ Error: " _ (by decide)⟩
          · rename_i fd hfd
            split
            · exact Or.inl ⟨rfl, errMark_prefix_append "❌ Error: " _ (by decide)⟩
            · rename_i td hft
              exact Or.inr ⟨text, c, fd, td, hnet, hjl, hfd, hft, rfl⟩

/-- Helper lemmas: each list renderer maps concatenation to concatenated
    renderings, preserving order. -/
theorem renderSubjectsDisplay_cons (s : Json) (rest : List Json) :
    renderSubjectsDisplay (s :: rest) =
      (renderSubjectDisplay s).bind fun a =>
        (renderSubjectsDisplay rest).map fun b => a ++ b := by
  cases h : renderSubjectDisplay s with
  | error e => simp only [renderSubjectsDisplay, h]; rfl
  | ok a =>
    cases h2 : renderSubjectsDisplay rest with
    | error e => simp only [renderSubjectsDisplay, h, h2]; rfl
    | ok b => simp only [renderSubjectsDisplay, h, h2]; rfl

theorem concat_render_append (f : Json → Except String String)
    (go : List Json → Except String String)
    (hnil : go [] = Except.ok "")
    (hcons : ∀ s rest, go (s :: rest) =
      (f s).bind fun a => (go rest).map fun b => a ++ b) (xs ys : List Json) :
    go (xs ++ ys) = (go xs).bind fun a => (go ys).map fun b => a ++ b := by
  induction xs with
  | nil =>
    rw [List.nil_append, hnil]
    cases h : go ys with
    | error e => rfl
    | ok b => simp only [Except.bind, Except.map, String.empty_append]
  | cons s rest ih =>
    rw [List.cons_append, hcons, hcons, ih]
    cases hf : f s with
    | error e => rfl
    | ok a =>
      cases hr : go rest with
      | error e => rfl
      | ok b =>
        cases hy : go ys with
        | error e => rfl
        | ok c => simp only [Except.bind, Except.map, String.append_assoc]

theorem renderSubjectsText_cons (s : Json) (rest : List Json) :
    renderSubjectsText (s :: rest) =
      (renderSubjectText s).bind fun a =>
        (renderSubjectsText rest).map fun b => a ++ b := by
  cases h : renderSubjectText s with
  | error e => simp only [renderSubjectsText, h]; rfl
  | ok a =>
    cases h2 : renderSubjectsText rest with
    | error e => simp only [renderSubjectsText, h, h2]; rfl
    | ok b => simp only [renderSubjectsText, h, h2]; rfl

theorem renderDaysDisplay_cons (day : Json) (rest : List Json) :
    renderDaysDisplay (day :: rest) =
      (renderDayDisplay day).bind fun a =>
        (renderDaysDisplay rest).map fun b => a ++ b := by
  cases h : renderDayDisplay day with
  | error e => simp only [renderDaysDisplay, h]; rfl
  | ok a =>
    cases h2 : renderDaysDisplay rest with
    | error e => simp only [renderDaysDisplay, h, h2]; rfl
    | ok b => simp only [renderDaysDisplay, h, h2]; rfl

theorem renderDaysText_cons (day : Json) (rest : List Json) :
    renderDaysText (day :: rest) =
      (renderDayText day).bind fun a =>
        (renderDaysText rest).map fun b => a ++ b := by
  cases h : renderDayText day with
  | error e => simp only [renderDaysText, h]; rfl
  | ok a =>
    cases h2 : renderDaysText rest with
    | error e => simp only [renderDaysText, h, h2]; rfl
    | ok b => simp only [renderDaysText, h, h2]; rfl

theorem renderPeriodsDisplay_cons (p : Json) (rest : List Json) :
    renderPeriodsDisplay (p :: rest) =
      (periodLineDisplay p).bind fun a =>
        (renderPeriodsDisplay rest).map fun b => a ++ b := by
  cases h1 : p.getItem "time" with
  | error e => simp only [renderPeriodsDisplay, periodLineDisplay, h1]; rfl
  | ok t =>
    cases h2 : p.getItem "subject" with
    | error e => simp only [renderPeriodsDisplay, periodLineDisplay, h1, h2]; rfl
    | ok sj =>
      cases h3 : p.getItem "activity" with
      | error e => simp only [renderPeriodsDisplay, periodLineDisplay, h1, h2, h3]; rfl
      | ok act =>
        cases h4 : renderPeriodsDisplay rest with
        | error e => simp only [renderPeriodsDisplay, periodLineDisplay, h1, h2, h3, h4]; rfl
        | ok more => simp only [renderPeriodsDisplay, periodLineDisplay, h1, h2, h3, h4]; rfl

theorem renderPeriodsText_cons (p : Json) (rest : List Json) :
    renderPeriodsText (p :: rest) =
      (periodLineText p).bind fun a =>
        (renderPeriodsText rest).map fun b => a ++ b := by
  cases h1 : p.getItem "time" with
  | error e => simp only [renderPeriodsText, periodLineText, h1]; rfl
  | ok t =>
    cases h2 : p.getItem "subject" with
    | error e => simp only [renderPeriodsText, periodLineText, h1, h2]; rfl
    | ok sj =>
      cases h3 : p.getItem "activity" with
      | error e => simp only [renderPeriodsText, periodLineText, h1, h2, h3]; rfl
      | ok act =>
        cases h4 : renderPeriodsText rest with
        | error e => simp only [renderPeriodsText, periodLineText, h1, h2, h3, h4]; rfl
        | ok more => simp only [renderPeriodsText, periodLineText, h1, h2, h3, h4]; rfl

theorem string_join_cons (s : String) (l : List String) :
    String.join (s :: l) = s ++ String.join l := by
  have h : ∀ (l : List String) (a : String),
      l.foldl (· ++ ·) a = a ++ l.foldl (· ++ ·) "" := by
    intro l
    induction l with
    | nil => intro a; simp [List.foldl, String.append_empty]
    | cons x xs ih =>
      intro a
      simp only [List.foldl]
      rw [ih (a ++ x), ih (("" : String) ++ x), String.empty_append,
        String.append_assoc]
  show (s :: l).foldl (· ++ ·) "" = s ++ l.foldl (· ++ ·) ""
  simp only [List.foldl]
  rw [h l (("" : String) ++ s), String.empty_append]

theorem objectiveLines_eq_enumFrom (i : Nat) (objs : List Json) :
    objectiveLines i objs = String.join ((List.enumFrom i objs).map
      fun p => toString p.1 ++ ". " ++ p.2.pyStr ++ "\n") := by
  induction objs generalizing i with
  | nil => rfl
  | cons o rest ih =>
    simp only [objectiveLines, List.enumFrom, List.map, string_join_cons, ih]

theorem renderSubjectDisplay_obj (nm hrs : Json) (objs acts tests res : List Json) :
    renderSubjectDisplay (Json.obj [("name", nm), ("weeklyHours", hrs),
        ("objectives", Json.arr objs), ("activities", Json.arr acts),
        ("assessments", Json.arr tests), ("resources", Json.arr res)]) =
      Except.ok ("### " ++ nm.pyStr ++ " (" ++ hrs.pyStr ++ " hrs/week)\n\n**Objectives:**\n"
        ++ objectiveLines 1 objs
        ++ "\n**Activities:**\n" ++ bulletLines acts
        ++ "\n**Assessments:**\n" ++ bulletLines tests
        ++ "\n**Resources:**\n" ++ bulletLines res
        ++ "\n---\n\n") := rfl

theorem renderSubjectText_obj (nm hrs : Json) (objs acts tests res : List Json) :
    renderSubjectText (Json.obj [("name", nm), ("weeklyHours", hrs),
        ("objectives", Json.arr objs), ("activities", Json.arr acts),
        ("assessments", Json.arr tests), ("resources", Json.arr res)]) =
      Except.ok ("\n" ++ nm.pyStr ++ "\nWeekly Hours: " ++ hrs.pyStr ++ "\n\nObjectives:\n"
        ++ objectiveLines 1 objs
        ++ "\nActivities:\n" ++ bulletLines acts
        ++ "\nAssessments:\n" ++ bulletLines tests
        ++ "\nResources:\n" ++ bulletLines res
        ++ "\n" ++ dashedLine ++ "\n") := rfl

/-- Claim C5: both renderers enumerate subjects, schedule days and periods
    in exactly the order they appear (rendering a concatenated list is the
    concatenation of the renderings), and objective numbering is position
    plus one, starting at 1 independently within each subject, in both
    renderers. -/
theorem renderers_preserve_order (xs ys : List Json) (i : Nat)
    (nm hrs : Json) (objs acts tests res : List Json) :
    (renderSubjectsDisplay (xs ++ ys) = (renderSubjectsDisplay xs).bind fun a =>
      (renderSubjectsDisplay ys).map fun b => a ++ b) ∧
    (renderSubjectsText (xs ++ ys) = (renderSubjectsText xs).bind fun a =>
      (renderSubjectsText ys).map fun b => a ++ b) ∧
    (renderDaysDisplay (xs ++ ys) = (renderDaysDisplay xs).bind fun a =>
      (renderDaysDisplay ys).map fun b => a ++ b) ∧
    (renderDaysText (xs ++ ys) = (renderDaysText xs).bind fun a =>
      (renderDaysText ys).map fun b => a ++ b) ∧
    (renderPeriodsDisplay (xs ++ ys) = (renderPeriodsDisplay xs).bind fun a =>
      (renderPeriodsDisplay ys).map fun b => a ++ b) ∧
    (renderPeriodsText (xs ++ ys) = (renderPeriodsText xs).bind fun a =>
      (renderPeriodsText ys).map fun b => a ++ b) ∧
    (objectiveLines i objs = String.join ((List.enumFrom i objs).map
      fun p => toString p.1 ++ ". " ++ p.2.pyStr ++ "\n")) ∧
    (renderSubjectDisplay (Json.obj [("name", nm), ("weeklyHours", hrs),
        ("objectives", Json.arr objs), ("activities", Json.arr acts),
        ("assessments", Json.arr tests), ("resources", Json.arr res)]) =
      Except.ok ("### " ++ nm.pyStr ++ " (" ++ hrs.pyStr
        ++ " hrs/week)\n\n**Objectives:**\n"
        ++ objectiveLines 1 objs
        ++ "\n**Activities:**\n" ++ bulletLines acts
        ++ "\n**Assessments:**\n" ++ bulletLines tests
        ++ "\n**Resources:**\n" ++ bulletLines res
        ++ "\n---\n\n")) ∧
    (renderSubjectText (Json.obj [("name", nm), ("weeklyHours", hrs),
        ("objectives", Json.arr objs), ("activities", Json.arr acts),
        ("assessments", Json.arr tests), ("resources", Json.arr res)]) =
      Except.ok ("\n" ++ nm.pyStr ++ "\nWeekly Hours: " ++ hrs.pyStr
        ++ "\n\nObjectives:\n"
        ++ objectiveLines 1 objs
        ++ "\nActivities:\n" ++ bulletLines acts
        ++ "\nAssessments:\n" ++ bulletLines tests
        ++ "\nResources:\n" ++ bulletLines res
        ++ "\n" ++ dashedLine ++ "\n")) :=
  ⟨concat_render_append renderSubjectDisplay renderSubjectsDisplay rfl
      renderSubjectsDisplay_cons xs ys,
   concat_render_append renderSubjectText renderSubjectsText rfl
      renderSubjectsText_cons xs ys,
   concat_render_append renderDayDisplay renderDaysDisplay rfl
      renderDaysDisplay_cons xs ys,
   concat_render_append renderDayText renderDaysText rfl
      renderDaysText_cons xs ys,
   concat_render_append periodLineDisplay renderPeriodsDisplay rfl
      renderPeriodsDisplay_cons xs ys,
   concat_render_append periodLineText renderPeriodsText rfl
      renderPeriodsText_cons xs ys,
   objectiveLines_eq_enumFrom i objs,
   renderSubjectDisplay_obj nm hrs objs acts tests res,
   renderSubjectText_obj nm hrs objs acts tests res⟩

/-- Helper lemmas: the two renderers perform the same field accesses in
    the same order, so they succeed together or fail with the same
    exception. -/
theorem agreeE_bind_same {α γ δ : Type} (a : Except String α)
    {f : α → Except String γ} {g : α → Except String δ}
    (h : ∀ x, agreeE (f x) (g x)) :
    agreeE (Bind.bind a f) (Bind.bind a g) := by
  cases a with
  | error e => exact rfl
  | ok x => exact h x

theorem agreeE_bind_two {α β γ δ : Type} {a : Except String α}
    {b : Except String β} {f : α → Except String γ} {g : β → Except String δ}
    (hab : agreeE a b) (h : ∀ x y, agreeE (f x) (g y)) :
    agreeE (Bind.bind a f) (Bind.bind b g) := by
  cases a with
  | error e =>
    cases b with
    | error e2 => exact hab
    | ok y => exact hab.elim
  | ok x =>
    cases b with
    | error e2 => exact hab.elim
    | ok y => exact h x y

theorem renderSubject_agree (s : Json) :
    agreeE (renderSubjectDisplay s) (renderSubjectText s) := by
  unfold renderSubjectDisplay renderSubjectText
  apply agreeE_bind_same (s.getItem "name"); intro name
  apply agreeE_bind_same (s.getItem "weeklyHours"); intro hours
  apply agreeE_bind_same (s.getItem "objectives"); intro v1
  apply agreeE_bind_same v1.pyIter; intro objs
  apply agreeE_bind_same (s.getItem "activities"); intro v2
  apply agreeE_bind_same v2.pyIter; intro acts
  apply agreeE_bind_same (s.getItem "assessments"); intro v3
  apply agreeE_bind_same v3.pyIter; intro tests
  apply agreeE_bind_same (s.getItem "resources"); intro v4
  apply agreeE_bind_same v4.pyIter; intro res
  exact trivial

theorem renderSubjects_agree (l : List Json) :
    agreeE (renderSubjectsDisplay l) (renderSubjectsText l) := by
  induction l with
  | nil => exact trivial
  | cons s rest ih =>
    unfold renderSubjectsDisplay renderSubjectsText
    exact agreeE_bind_two (renderSubject_agree s)
      (fun x y => agreeE_bind_two ih (fun a b => trivial))

theorem renderPeriods_agree (l : List Json) :
    agreeE (renderPeriodsDisplay l) (renderPeriodsText l) := by
  induction l with
  | nil => exact trivial
  | cons p rest ih =>
    unfold renderPeriodsDisplay renderPeriodsText
    apply agreeE_bind_same (p.getItem "time"); intro t
    apply agreeE_bind_same (p.getItem "subject"); intro sj
    apply agreeE_bind_same (p.getItem "activity"); intro act
    exact agreeE_bind_two ih (fun a b => trivial)

theorem renderDay_agree (day : Json) :
    agreeE (renderDayDisplay day) (renderDayText day) := by
  unfold renderDayDisplay renderDayText
  apply agreeE_bind_same (day.getItem "day"); intro d
  apply agreeE_bind_same (day.getItem "periods"); intro v
  apply agreeE_bind_same v.pyIter; intro ps
  exact agreeE_bind_two (renderPeriods_agree ps) (fun a b => trivial)

theorem renderDays_agree (l : List Json) :
    agreeE (renderDaysDisplay l) (renderDaysText l) := by
  induction l with
  | nil => exact trivial
  | cons day rest ih =>
    unfold renderDaysDisplay renderDaysText
    exact agreeE_bind_two (renderDay_agree day)
      (fun x y => agreeE_bind_two ih (fun a b => trivial))

theorem format_agree (c : Json) (n : String) (g : Int) (d : String) :
    agreeE (format_curriculum_display c n g d) (format_curriculum_text c n g d) := by
  unfold format_curriculum_display format_curriculum_text
  apply agreeE_bind_same (c.getItem "overview"); intro overview
  apply agreeE_bind_same (c.getItem "subjects"); intro v1
  apply agreeE_bind_same v1.pyIter; intro subjects
  apply agreeE_bind_two (renderSubjects_agree subjects); intro a b
  apply agreeE_bind_same (c.getItem "weeklySchedule"); intro v2
  apply agreeE_bind_same v2.pyIter; intro days
  exact agreeE_bind_two (renderDays_agree days) (fun x y => trivial)

theorem agreeE_split {α β : Type} {a : Except String α} {b : Except String β}
    (h : agreeE a b) :
    (a.isOk = true ∧ b.isOk = true) ∨
      ∃ e, a = Except.error e ∧ b = Except.error e := by
  cases a with
  | error e =>
    cases b with
    | error e2 =>
      have h2 : e = e2 := h
      exact Or.inr ⟨e, rfl, by rw [h2]⟩
    | ok y => exact h.elim
  | ok x =>
    cases b with
    | error e2 => exact h.elim
    | ok y => exact Or.inl ⟨rfl, rfl⟩

/-- Claim C7: both renderers are pure functions of the record, student name,
    grade and render date (equal inputs give equal outputs), and on every
    input they either both succeed or both fail with the same error, so the
    displayed and downloaded content cannot diverge in data. -/
theorem renderers_pure_and_agree (c c2 : Json) (n n2 : String) (g g2 : Int)
    (d d2 : String) (hc : c = c2) (hn : n = n2) (hg : g = g2) (hd : d = d2) :
    (format_curriculum_display c n g d = format_curriculum_display c2 n2 g2 d2 ∧
     format_curriculum_text c n g d = format_curriculum_text c2 n2 g2 d2) ∧
    (((format_curriculum_display c n g d).isOk = true ∧
      (format_curriculum_text c n g d).isOk = true) ∨
     (∃ e, format_curriculum_display c n g d = Except.error e ∧
           format_curriculum_text c n g d = Except.error e)) := by
  subst hc; subst hn; subst hg; subst hd
  exact ⟨⟨rfl, rfl⟩, agreeE_split (format_agree c n g d)⟩

theorem renderers_pure_and_agree_witness :
    (format_curriculum_display Json.null "Alex" 3 "2026-10-12" =
        format_curriculum_display Json.null "Alex" 3 "2026-10-12" ∧
      format_curriculum_text Json.null "Alex" 3 "2026-10-12" =
        format_curriculum_text Json.null "Alex" 3 "2026-10-12") ∧
    (((format_curriculum_display Json.null "Alex" 3 "2026-10-12").isOk = true ∧
      (format_curriculum_text Json.null "Alex" 3 "2026-10-12").isOk = true) ∨
     (∃ e, format_curriculum_display Json.null "Alex" 3 "2026-10-12" =
            Except.error e ∧
           format_curriculum_text Json.null "Alex" 3 "2026-10-12" =
            Except.error e)) :=
  renderers_pure_and_agree Json.null Json.null "Alex" "Alex" 3 3
    "2026-10-12" "2026-10-12" rfl rfl rfl rfl

/-- Helper lemmas: after the left-to-right replacement scan deletes the
    fence pattern, no fence substring survives anywhere in the result. -/
theorem tick_fence_data : "```".data = [tick, tick, tick] := by decide

theorem replace_tick_keeps_prefix_one (fuel : Nat) (l : List Char)
    (hp : [tick] <+: replaceFuel [tick, tick, tick] [] fuel l) :
    [tick] <+: l := by
  cases fuel with
  | zero =>
    cases l with
    | nil => exact absurd (List.prefix_nil.mp hp) (by decide)
    | cons c rest => exact hp
  | succ fuel =>
    cases l with
    | nil => exact absurd (List.prefix_nil.mp hp) (by decide)
    | cons c rest =>
      by_cases hmatch : [tick, tick, tick].isPrefixOf (c :: rest)
      · have h3 := List.isPrefixOf_iff_prefix.mp hmatch
        obtain ⟨h1, _⟩ := List.cons_prefix_cons.mp h3
        exact List.cons_prefix_cons.mpr ⟨h1, List.nil_prefix⟩
      · simp only [replaceFuel, hmatch, Bool.false_and, if_false] at hp
        obtain ⟨h1, _⟩ := List.cons_prefix_cons.mp hp
        exact List.cons_prefix_cons.mpr ⟨h1, List.nil_prefix⟩

theorem replace_tick_keeps_prefix_two (fuel : Nat) (l : List Char)
    (hp : [tick, tick] <+: replaceFuel [tick, tick, tick] [] fuel l) :
    [tick, tick] <+: l := by
  cases fuel with
  | zero =>
    cases l with
    | nil => exact absurd (List.prefix_nil.mp hp) (by decide)
    | cons c rest => exact hp
  | succ fuel =>
    cases l with
    | nil => exact absurd (List.prefix_nil.mp hp) (by decide)
    | cons c rest =>
      by_cases hmatch : [tick, tick, tick].isPrefixOf (c :: rest)
      · have h3 := List.isPrefixOf_iff_prefix.mp hmatch
        obtain ⟨h1, h2⟩ := List.cons_prefix_cons.mp h3
        exact List.cons_prefix_cons.mpr
          ⟨h1, (show [tick] <+: [tick, tick] by decide).trans h2⟩
      · simp only [replaceFuel, hmatch, Bool.false_and, if_false] at hp
        obtain ⟨h1, h2⟩ := List.cons_prefix_cons.mp hp
        have h5 := replace_tick_keeps_prefix_one fuel rest h2
        exact List.cons_prefix_cons.mpr ⟨h1, h5⟩

theorem replace_tick_no_fence (fuel : Nat) (l : List Char) (hl : l.length ≤ fuel) :
    ¬ ([tick, tick, tick] <:+: replaceFuel [tick, tick, tick] [] fuel l) := by
  induction fuel generalizing l with
  | zero =>
    have : l = [] := List.eq_nil_of_length_eq_zero (Nat.le_zero.mp hl)
    subst this
    intro h
    exact absurd (List.infix_nil.mp h) (by decide)
  | succ fuel ih =>
    cases l with
    | nil =>
      intro h
      exact absurd (List.infix_nil.mp h) (by decide)
    | cons c rest =>
      have hrest : rest.length ≤ fuel := by
        simp only [List.length_cons] at hl
        omega
      by_cases hmatch : [tick, tick, tick].isPrefixOf (c :: rest)
      · intro h
        simp only [replaceFuel, hmatch, Bool.true_and, List.isEmpty_cons,
          Bool.not_false, if_true, List.nil_append] at h
        have hdrop : (List.drop 2 rest).length ≤ fuel := by
          simp only [List.length_drop]
          omega
        exact ih (List.drop 2 rest) hdrop h
      · intro h
        simp only [replaceFuel, hmatch, Bool.false_and, if_false] at h
        rcases List.infix_cons_iff.mp h with hpre | hinf
        · obtain ⟨h1, h2⟩ := List.cons_prefix_cons.mp hpre
          have h5 := replace_tick_keeps_prefix_two fuel rest h2
          exact hmatch (List.isPrefixOf_iff_prefix.mpr
            (List.cons_prefix_cons.mpr ⟨h1, h5⟩))
        · exact ih rest hrest hinf

theorem pyStrip_isInfix (s : String) : (pyStrip s).data <:+: s.data := by
  show pyStripList s.data <:+: s.data
  have h1 : s.data.dropWhile pyIsSpace <:+ s.data := List.dropWhile_suffix _
  have h2 : pyStripList s.data <+: s.data.dropWhile pyIsSpace := by
    unfold pyStripList
    rw [← List.reverse_suffix, List.reverse_reverse]
    exact List.dropWhile_suffix _
  exact h2.isInfix.trans h1.isInfix

theorem cleanResponse_no_fence (t : String) :
    ¬ ("```".data <:+: (cleanResponse t).data) := by
  intro h
  have h2 : "```".data <:+: (pyReplace (pyReplace t "```json" "") "```" "").data :=
    h.trans (pyStrip_isInfix (pyReplace (pyReplace t "```json" "") "```" ""))
  have heq : (pyReplace (pyReplace t "```json" "") "```" "").data =
      replaceFuel [tick, tick, tick] []
        (pyReplace t "```json" "").data.length (pyReplace t "```json" "").data := by
    show replaceFuel "```".data "".data _ _ = _
    rw [tick_fence_data]
  rw [heq, tick_fence_data] at h2
  exact replace_tick_no_fence _ _ le_rfl h2

theorem cleanResponse_no_fence_json (t : String) :
    ¬ ("```json".data <:+: (cleanResponse t).data) := by
  intro h
  exact cleanResponse_no_fence t
    ((show "```".data <+: "```json".data by decide).isInfix.trans h)

theorem generate_curriculum_clean_congr (api_key student_name : String)
    (grade_level : Int) (selected_subjects : List String)
    (learning_style : String) (weeks_per_year days_per_week : Int)
    (goals : String) (jl : String → Except String Json) (today : String)
    (t₁ t₂ : String) (h : cleanResponse t₁ = cleanResponse t₂) :
    generate_curriculum api_key student_name grade_level selected_subjects
      learning_style weeks_per_year days_per_week goals
      (fun _ => NetOutcome.response t₁) jl today =
    generate_curriculum api_key student_name grade_level selected_subjects
      learning_style weeks_per_year days_per_week goals
      (fun _ => NetOutcome.response t₂) jl today := by
  unfold generate_curriculum
  by_cases hsub : selected_subjects.isEmpty = true
  · simp [hsub]
  · by_cases hk : api_key = ""
    · simp [hsub, hk]
    · simp [hsub, hk, h]


/-- Claim C9: the fence cleaning removes every occurrence of the literal
    fence substrings anywhere in the response, not only surrounding ones:
    no fence survives cleaning for any response; a response whose JSON
    string content carries interior fences has them deleted before parsing,
    making the pipeline treat it exactly like the response with those
    characters removed, which alters the parsed data. -/
theorem fence_removal :
    (∀ t : String, ¬ ("```".data <:+: (cleanResponse t).data)) ∧
    (∀ t : String, ¬ ("```json".data <:+: (cleanResponse t).data)) ∧
    cleanResponse "\x7b\"overview\": \"Use ```json blocks```\"\x7d" =
      "\x7b\"overview\": \"Use  blocks\"\x7d" ∧
    pyStrip "\x7b\"overview\": \"Use ```json blocks```\"\x7d" =
      "\x7b\"overview\": \"Use ```json blocks```\"\x7d" ∧
    (∀ (api_key student_name : String) (grade_level : Int)
      (selected_subjects : List String) (learning_style : String)
      (weeks_per_year days_per_week : Int) (goals : String)
      (jl : String → Except String Json) (today : String),
      generate_curriculum api_key student_name grade_level selected_subjects
        learning_style weeks_per_year days_per_week goals
        (fun _ => NetOutcome.response
          "\x7b\"overview\": \"Use ```json blocks```\"\x7d") jl today =
      generate_curriculum api_key student_name grade_level selected_subjects
        learning_style weeks_per_year days_per_week goals
        (fun _ => NetOutcome.response
          "\x7b\"overview\": \"Use  blocks\"\x7d") jl today) :=
  ⟨cleanResponse_no_fence, cleanResponse_no_fence_json, by decide, by decide,
   fun api_key student_name grade_level selected_subjects learning_style
       weeks_per_year days_per_week goals jl today =>
     generate_curriculum_clean_congr api_key student_name grade_level
       selected_subjects learning_style weeks_per_year days_per_week goals
       jl today _ _ (by decide)⟩
